import Mathlib

/-!
# Verification of `homeassistant/components/digitalloggers/switch.py`

A shallow embedding of the Digital Loggers DIN III relay integration:
the `setup_platform` registration function, the `DINRelay` switch entity
and the `DINRelayDevice` per-device cache, together with proofs of the
behavioural properties stated in the specification.

Modelling conventions:
* Python `None`-able strings become `Option String` (`none` = Python `None`,
  `some ""` = the empty string, which Python treats as falsy but not as `None`).
* Python list subscripting (`l[i]`) becomes `pyIndex`, which reproduces
  CPython semantics: a negative index wraps once from the end, and an index
  outside `[-len, len)` raises `IndexError`.
* Exceptions become `Except PyError`; `PyError.InvalidOutletError` is the
  error class named by the specification (the source itself never raises it,
  which is exactly what the theorems about it establish).
* The network call `power_switch.statuslist()` is a parameter of the
  functions that perform it (an `Except PyError (List StatusEntry)`:
  either the fetched table or the exception the transport raised).
* Timestamps are natural numbers counting seconds.
-/

/-- Errors a call can raise.  `IndexError` and `TypeError` are the Python
built-ins; `CommunicationError` stands for any transport-level exception of
the underlying `dlipower` library; `InvalidOutletError` is the dedicated
out-of-range error class that the specification requires. -/
inductive PyError where
  | IndexError
  | TypeError
  | CommunicationError
  | InvalidOutletError
deriving DecidableEq, Repr

/-- One row of `power_switch.statuslist()`: the tuple
`(outlet_number, description, state)`.  `description` is `None`-able. -/
structure StatusEntry where
  outlet_number : Nat
  description : Option String
  state : String
deriving DecidableEq, Repr

/-- CPython list subscripting `l[i]` for `i : Int`: indices in
`[0, len)` read directly, indices in `[-len, 0)` wrap once from the end,
and everything else raises `IndexError`. -/
def pyIndex (l : List α) (i : Int) : Except PyError α :=
  let j : Int := if i < 0 then i + l.length else i
  if h : 0 ≤ j ∧ j < l.length then .ok (l.get ⟨j.toNat, by omega⟩)
  else .error .IndexError

/-- Python truthiness of `x or d` for a `None`-able string `x`:
both `None` and `""` are falsy, so they select the default `d`. -/
def pyOr (x : Option String) (d : String) : String :=
  match x with
  | none => d
  | some s => if s = "" then d else s

/-- `MIN_TIME_BETWEEN_UPDATES = timedelta(seconds=5)` (in seconds). -/
def MIN_TIME_BETWEEN_UPDATES : Nat := 5

/-- State of a `DINRelayDevice`: the cached `_statuslist` (initially
`None`), the device `hostname`, and the timestamp stored by the
`Throttle` decorator wrapped around `update` (initially absent).
The decorator itself lives in `homeassistant.util`, outside this
component's sources; its gate is modelled from the spec below. -/
structure DINRelayDevice where
  _statuslist : Option (List StatusEntry)
  hostname : String
  lastFetchTime : Option Nat
deriving DecidableEq, Repr

/-- `DINRelayDevice.__init__`: no snapshot yet, no throttle timestamp. -/
def DINRelayDevice.init (hostname : String) : DINRelayDevice :=
  { _statuslist := none, hostname := hostname, lastFetchTime := none }

/-- `DINRelayDevice.get_outlet_status`:
`return self._statuslist[outlet_number - 1]`.  Subscripting the initial
`None` raises `TypeError`; otherwise Python list indexing applies. -/
def DINRelayDevice.get_outlet_status (dev : DINRelayDevice) (outlet_number : Nat) :
    Except PyError StatusEntry :=
  match dev._statuslist with
  | none => .error .TypeError
  | some l => pyIndex l ((outlet_number : Int) - 1)

/-- Modelled from the spec: the gate of the `Throttle` decorator
(`homeassistant.util.Throttle`, not among this component's source files).
Per the spec, `refresh()` skips the network call iff
`now - lastFetchTime < minInterval`; a never-fetched cache always fetches. -/
def throttleAllows (dev : DINRelayDevice) (now : Nat) : Bool :=
  match dev.lastFetchTime with
  | none => true
  | some t => decide (MIN_TIME_BETWEEN_UPDATES ≤ now - t)

/-- What one call to `DINRelayDevice.update` did. -/
inductive UpdateOutcome where
  | fetched
  | throttled
  | raised (e : PyError)
deriving DecidableEq, Repr

/-- `DINRelayDevice.update` under `@Throttle(MIN_TIME_BETWEEN_UPDATES)`:
if the throttle gate opens, run `self._statuslist = self._power_switch.statuslist()`
with the transport's answer `statuslist_result`; an exception leaves
`_statuslist` (and the throttle timestamp) unchanged and propagates.
If the gate is closed, nothing runs.  (The gate is modelled from the spec,
see `throttleAllows`; the body is the source line.) -/
def DINRelayDevice.update (dev : DINRelayDevice) (now : Nat)
    (statuslist_result : Except PyError (List StatusEntry)) :
    DINRelayDevice × UpdateOutcome :=
  if throttleAllows dev now then
    match statuslist_result with
    | .ok l => ({ dev with _statuslist := some l, lastFetchTime := some now }, .fetched)
    | .error e => (dev, .raised e)
  else (dev, .throttled)

/-- The `DINRelay` entity.  `hostname` stands for the
`self._parent_device.hostname` read by `unique_id`; the `dlipower.Outlet`
held by the entity is flattened into the fields `__init__` copies out of it. -/
structure DINRelay where
  _controller_name : String
  hostname : String
  _outlet_number : Nat
  _name : String
  _state : Bool
deriving DecidableEq, Repr

/-- `DINRelay.__init__` (with the `dlipower.Outlet` argument flattened to
its `outlet_number`, `description` and `state` fields):
`self._name = self._outlet.description`, `self._state = self._outlet.state == "ON"`. -/
def DINRelay.init (controller_name hostname : String) (outlet_number : Nat)
    (description state : String) : DINRelay :=
  { _controller_name := controller_name, hostname := hostname,
    _outlet_number := outlet_number, _name := description,
    _state := state == "ON" }

/-- `DINRelay.name`: `f"{self._controller_name}_{self._name}"`. -/
def DINRelay.name (r : DINRelay) : String :=
  r._controller_name ++ "_" ++ r._name

/-- `DINRelay.is_on`: `return self._state`. -/
def DINRelay.is_on (r : DINRelay) : Bool :=
  r._state

/-- `DINRelay.unique_id`: `f"{self._parent_device.hostname}_{self._outlet_number}"`. -/
def DINRelay.unique_id (r : DINRelay) : String :=
  r.hostname ++ "_" ++ toString r._outlet_number

/-- The set command `turn_on`/`turn_off` sends to the device
(`dlipower.Outlet.on()` / `.off()` on this entity's outlet). -/
inductive OutletCommand where
  | on (outlet_number : Nat)
  | off (outlet_number : Nat)
deriving DecidableEq, Repr

/-- `DINRelay.turn_on`: `self._outlet.on()`.  The command goes straight to
the device client for this outlet; the entity's fields and the parent
device's cache are not touched. -/
def DINRelay.turn_on (r : DINRelay) (dev : DINRelayDevice) :
    DINRelay × DINRelayDevice × OutletCommand :=
  (r, dev, .on r._outlet_number)

/-- `DINRelay.turn_off`: `self._outlet.off()`. -/
def DINRelay.turn_off (r : DINRelay) (dev : DINRelayDevice) :
    DINRelay × DINRelayDevice × OutletCommand :=
  (r, dev, .off r._outlet_number)

/-- The tail of `DINRelay.update` once `get_outlet_status` has produced a
row: `self._name = outlet_status[1] or str(self._outlet_number)` and
`self._state = outlet_status[2] == "ON"`. -/
def DINRelay.applyStatus (r : DINRelay) (outlet_status : StatusEntry) : DINRelay :=
  { r with _name := pyOr outlet_status.description (toString r._outlet_number),
           _state := outlet_status.state == "ON" }

/-- `DINRelay.update`: refresh the parent device (throttled), then read
this outlet's row from the cache and copy name and state from it.  Any
exception (transport failure during the refresh, or out-of-range
subscripting in `get_outlet_status`) propagates. -/
def DINRelay.update (r : DINRelay) (dev : DINRelayDevice) (now : Nat)
    (statuslist_result : Except PyError (List StatusEntry)) :
    DINRelayDevice × Except PyError DINRelay :=
  let p := DINRelayDevice.update dev now statuslist_result
  match p.2 with
  | .raised e => (p.1, .error e)
  | _ =>
    match DINRelayDevice.get_outlet_status p.1 r._outlet_number with
    | .ok row => (p.1, .ok (r.applyStatus row))
    | .error e => (p.1, .error e)

/-- The registration loop of `setup_platform` over `power_switch.statuslist()`:
a row whose `description is None` is skipped when `ignore_unnamed` is set,
otherwise its description becomes `str(outlet_number)`; every kept row
becomes a `DINRelay`. -/
def buildOutlets (controller_name hostname : String) (ignore_unnamed : Bool) :
    List StatusEntry → List DINRelay
  | [] => []
  | e :: rest =>
    match e.description with
    | none =>
      if ignore_unnamed then buildOutlets controller_name hostname ignore_unnamed rest
      else
        DINRelay.init controller_name hostname e.outlet_number
            (toString e.outlet_number) e.state ::
          buildOutlets controller_name hostname ignore_unnamed rest
    | some d =>
      DINRelay.init controller_name hostname e.outlet_number d e.state ::
        buildOutlets controller_name hostname ignore_unnamed rest

/-- `setup_platform` after configuration parsing: if `power_switch.verify()`
is false, log and `return False` — `add_entities` is never reached and the
result carries no entities (`none`).  Otherwise build the outlet list from
`power_switch.statuslist()` and hand it to `add_entities` (`some`). -/
def setup_platform (verify : Bool) (statuslist : List StatusEntry)
    (controller_name host : String) (ignore_unnamed : Bool) :
    Option (List DINRelay) :=
  if verify then
    some (buildOutlets controller_name host ignore_unnamed statuslist)
  else none

/-! ## Helper lemmas -/

/-- `Nat.toDigitsCore` with positive fuel always pushes at least one digit
onto the accumulator. -/
theorem toDigitsCore_length_lt (b : Nat) :
    ∀ (f n : Nat) (ds : List Char), ds.length < (Nat.toDigitsCore b (f + 1) n ds).length := by
  intro f
  induction f with
  | zero =>
    intro n ds
    simp only [Nat.toDigitsCore]
    split <;> simp
  | succ f ih =>
    intro n ds
    simp only [Nat.toDigitsCore]
    split
    · simp
    · exact Nat.lt_trans (Nat.lt_succ_self ds.length)
        (by simpa using ih (n / b) (Nat.digitChar (n % b) :: ds))

/-- The decimal rendering of a natural number is never the empty string. -/
theorem toString_nat_ne_empty (n : Nat) : toString n ≠ "" := by
  intro h
  have hd : Nat.toDigits 10 n = [] := congrArg String.data h
  have hlen := toDigitsCore_length_lt 10 n n []
  rw [show Nat.toDigitsCore 10 (n + 1) n [] = Nat.toDigits 10 n from rfl, hd] at hlen
  simp at hlen

/-- `String` append is left-cancellative. -/
theorem string_append_left_cancel {a b c : String} (h : a ++ b = a ++ c) : b = c := by
  have hd := congrArg String.data h
  simp only [String.data_append] at hd
  exact String.ext (List.append_cancel_left hd)

/-! ## Claim theorems -/

/-- Claim C1 (amended): for every cached snapshot and every outlet number
strictly greater than the snapshot's length, `get_outlet_status` raises the
out-of-bounds `IndexError` — the raw `self._statuslist[outlet_number - 1]`
subscript — rather than the dedicated `InvalidOutletError`. -/
theorem get_outlet_status_oob (dev : DINRelayDevice) (l : List StatusEntry) (n : Nat)
    (hs : dev._statuslist = some l) (hn : l.length < n) :
    dev.get_outlet_status n = .error .IndexError := by
  simp only [DINRelayDevice.get_outlet_status, hs, pyIndex]
  have hif : (if ((n : Int) - 1) < 0 then (n : Int) - 1 + l.length else (n : Int) - 1) =
      (n : Int) - 1 := if_neg (by omega)
  rw [dif_neg (by rw [hif]; omega)]

/-- Claim C1 counterexample: on a one-entry snapshot, asking for outlet 2
fails with `IndexError` and not, as claimed, with `InvalidOutletError`. -/
theorem get_outlet_status_oob_counterexample :
    DINRelayDevice.get_outlet_status ⟨some [⟨1, none, "OFF"⟩], "h", none⟩ 2 =
      .error .IndexError ∧
    DINRelayDevice.get_outlet_status ⟨some [⟨1, none, "OFF"⟩], "h", none⟩ 2 ≠
      .error .InvalidOutletError :=
  ⟨rfl, fun h => by
    have h2 : (Except.error PyError.IndexError : Except PyError StatusEntry) =
        .error .InvalidOutletError := h
    exact PyError.noConfusion (Except.error.inj h2)⟩

/-- Claim C1 witness: a two-entry snapshot queried at outlet 3. -/
theorem get_outlet_status_oob_witness :
    DINRelayDevice.get_outlet_status
        ⟨some [⟨1, none, "OFF"⟩, ⟨2, some "fan", "ON"⟩], "host", none⟩ 3 =
      .error .IndexError :=
  get_outlet_status_oob _ [⟨1, none, "OFF"⟩, ⟨2, some "fan", "ON"⟩] 3 rfl (by decide)

/-- Claim C2 (amended): for a pair of `DINRelayDevice.update` calls less
than `MIN_TIME_BETWEEN_UPDATES` apart whose first call finds the throttle
gate open (in particular at startup, before any fetch), the first call
issues the single `statuslist` query and the second is throttled, fetching
nothing and leaving the cached snapshot unchanged. -/
theorem update_within_interval_single_fetch
    (dev : DINRelayDevice) (t1 t2 : Nat) (f1 f2 : List StatusEntry)
    (hopen : throttleAllows dev t1 = true)
    (hgap : t2 - t1 < MIN_TIME_BETWEEN_UPDATES) :
    (dev.update t1 (.ok f1)).2 = .fetched ∧
    ((dev.update t1 (.ok f1)).1.update t2 (.ok f2)).2 = .throttled ∧
    ((dev.update t1 (.ok f1)).1.update t2 (.ok f2)).1 = (dev.update t1 (.ok f1)).1 := by
  have hstep : dev.update t1 (.ok f1) =
      ({ dev with _statuslist := some f1, lastFetchTime := some t1 }, .fetched) := by
    simp [DINRelayDevice.update, hopen]
  have h2 : throttleAllows { dev with _statuslist := some f1, lastFetchTime := some t1 } t2
      = false := by
    simp only [throttleAllows, MIN_TIME_BETWEEN_UPDATES] at *
    simp; omega
  rw [hstep]
  simp [DINRelayDevice.update, h2]

/-- Claim C2 counterexample: the throttle measures from the last *fetch*,
not the last call.  After a fetch at time 0, the pair of calls at times 4
and 6 is 2 seconds apart (< 5), yet its second call performs a fetch and
replaces the snapshot (the first call of the pair was throttled). -/
theorem update_within_interval_counterexample :
    ((((DINRelayDevice.init "h").update 0 (.ok [⟨1, some "a", "ON"⟩])).1.update 4
        (.ok [⟨1, some "a", "ON"⟩])).2 = .throttled) ∧
    (((((DINRelayDevice.init "h").update 0 (.ok [⟨1, some "a", "ON"⟩])).1.update 4
        (.ok [⟨1, some "a", "ON"⟩])).1.update 6 (.ok [⟨1, some "a", "OFF"⟩])).2 = .fetched) ∧
    (((((DINRelayDevice.init "h").update 0 (.ok [⟨1, some "a", "ON"⟩])).1.update 4
        (.ok [⟨1, some "a", "ON"⟩])).1.update 6 (.ok [⟨1, some "a", "OFF"⟩])).1._statuslist =
      some [⟨1, some "a", "OFF"⟩]) ∧
    6 - 4 < MIN_TIME_BETWEEN_UPDATES :=
  ⟨rfl, rfl, rfl, by decide⟩

/-- Claim C2 witness: a fresh device, calls at times 10 and 14. -/
theorem update_within_interval_single_fetch_witness :
    ((DINRelayDevice.init "host").update 10 (.ok [⟨1, none, "ON"⟩])).2 = .fetched ∧
    (((DINRelayDevice.init "host").update 10 (.ok [⟨1, none, "ON"⟩])).1.update 14
        (.ok [⟨1, none, "OFF"⟩])).2 = .throttled ∧
    (((DINRelayDevice.init "host").update 10 (.ok [⟨1, none, "ON"⟩])).1.update 14
        (.ok [⟨1, none, "OFF"⟩])).1 =
      ((DINRelayDevice.init "host").update 10 (.ok [⟨1, none, "ON"⟩])).1 :=
  update_within_interval_single_fetch _ 10 14 _ _ rfl (by decide)

/-- Claim C3 (amended): for a pair of `DINRelayDevice.update` calls at
least `MIN_TIME_BETWEEN_UPDATES` apart whose first call finds the throttle
gate open, both calls issue the underlying `statuslist` query, and the
second replaces the cached snapshot with its freshly fetched one. -/
theorem update_after_interval_fetches_again
    (dev : DINRelayDevice) (t1 t2 : Nat) (f1 f2 : List StatusEntry)
    (hopen : throttleAllows dev t1 = true)
    (hgap : t1 + MIN_TIME_BETWEEN_UPDATES ≤ t2) :
    (dev.update t1 (.ok f1)).2 = .fetched ∧
    ((dev.update t1 (.ok f1)).1.update t2 (.ok f2)).2 = .fetched ∧
    ((dev.update t1 (.ok f1)).1.update t2 (.ok f2)).1._statuslist = some f2 := by
  have hstep : dev.update t1 (.ok f1) =
      ({ dev with _statuslist := some f1, lastFetchTime := some t1 }, .fetched) := by
    simp [DINRelayDevice.update, hopen]
  have h2 : throttleAllows { dev with _statuslist := some f1, lastFetchTime := some t1 } t2
      = true := by
    simp only [throttleAllows, MIN_TIME_BETWEEN_UPDATES] at *
    simp; omega
  rw [hstep]
  simp [DINRelayDevice.update, h2]

/-- Claim C3 counterexample: after a fetch at time 0, the pair of calls at
times 1 and 6 is 5 seconds apart, yet only its second call issues a query —
the first call of the pair is throttled by the time-0 fetch. -/
theorem update_after_interval_counterexample :
    ((((DINRelayDevice.init "h").update 0 (.ok [⟨1, some "b", "ON"⟩])).1.update 1
        (.ok [⟨1, some "b", "ON"⟩])).2 = .throttled) ∧
    (((((DINRelayDevice.init "h").update 0 (.ok [⟨1, some "b", "ON"⟩])).1.update 1
        (.ok [⟨1, some "b", "ON"⟩])).1.update 6 (.ok [⟨1, some "b", "OFF"⟩])).2 = .fetched) ∧
    1 + MIN_TIME_BETWEEN_UPDATES ≤ 6 :=
  ⟨rfl, rfl, by decide⟩

/-- Claim C3 witness: a fresh device, calls at times 10 and 15. -/
theorem update_after_interval_fetches_again_witness :
    ((DINRelayDevice.init "host").update 10 (.ok [⟨1, none, "ON"⟩])).2 = .fetched ∧
    (((DINRelayDevice.init "host").update 10 (.ok [⟨1, none, "ON"⟩])).1.update 15
        (.ok [⟨1, none, "OFF"⟩])).2 = .fetched ∧
    (((DINRelayDevice.init "host").update 10 (.ok [⟨1, none, "ON"⟩])).1.update 15
        (.ok [⟨1, none, "OFF"⟩])).1._statuslist = some [⟨1, none, "OFF"⟩] :=
  update_after_interval_fetches_again _ 10 15 _ _ rfl (by decide)

/-- Claim C4: whenever `power_switch.verify()` is false, `setup_platform`
registers no entities — it returns the failure value before the
registration loop and `add_entities` is never reached. -/
theorem setup_platform_verify_false_registers_nothing
    (statuslist : List StatusEntry) (controller_name host : String)
    (ignore_unnamed : Bool) :
    setup_platform false statuslist controller_name host ignore_unnamed = none := rfl

/-- Claim C5: `turn_on`/`turn_off` send the set command for this entity's
outlet straight to the device client, whatever the throttle state, and
leave every piece of cached presentation state — the entity itself, its
`_name` and `_state`, the parent's `_statuslist`, and hence `name` and
`is_on` — exactly as it was. -/
theorem turn_on_off_direct_and_frame (r : DINRelay) (dev : DINRelayDevice) :
    (r.turn_on dev).2.2 = .on r._outlet_number ∧
    (r.turn_off dev).2.2 = .off r._outlet_number ∧
    (r.turn_on dev).1 = r ∧ (r.turn_off dev).1 = r ∧
    (r.turn_on dev).1._state = r._state ∧ (r.turn_on dev).1._name = r._name ∧
    (r.turn_on dev).2.1._statuslist = dev._statuslist ∧
    (r.turn_off dev).2.1._statuslist = dev._statuslist ∧
    (r.turn_on dev).1.is_on = r.is_on ∧ (r.turn_off dev).1.is_on = r.is_on := by
  simp [DINRelay.turn_on, DINRelay.turn_off]

/-- Claim C6: if the `statuslist` fetch raises during a refresh whose
throttle gate is open, the device state — in particular the cached
`_statuslist` — is exactly what it was before the call, and the exception
propagates to the caller instead of being masked as fresh data. -/
theorem update_fetch_failure_keeps_snapshot_and_raises
    (dev : DINRelayDevice) (now : Nat) (e : PyError)
    (hopen : throttleAllows dev now = true) :
    dev.update now (.error e) = (dev, .raised e) := by
  simp [DINRelayDevice.update, hopen]

/-- Claim C6 witness: a fresh device whose first fetch fails. -/
theorem update_fetch_failure_keeps_snapshot_and_raises_witness :
    (DINRelayDevice.init "host").update 0 (.error .CommunicationError) =
      (DINRelayDevice.init "host", .raised .CommunicationError) :=
  update_fetch_failure_keeps_snapshot_and_raises _ 0 .CommunicationError rfl

/-- Claim C7: with `ignore_unnamed_outlets` set, the registration loop
keeps at most one controller per status row, and strictly fewer than the
row count as soon as some row's description is `None`. -/
theorem buildOutlets_ignore_unnamed_card (cn host : String) (entries : List StatusEntry) :
    (buildOutlets cn host true entries).length ≤ entries.length ∧
    ((∃ e ∈ entries, e.description = none) →
      (buildOutlets cn host true entries).length < entries.length) := by
  induction entries with
  | nil => simp [buildOutlets]
  | cons e rest ih =>
    rcases ih with ⟨ih1, ih2⟩
    cases hd : e.description with
    | none =>
      refine ⟨?_, fun _ => ?_⟩ <;> simp [buildOutlets, hd] <;> omega
    | some d =>
      refine ⟨?_, ?_⟩
      · simp [buildOutlets, hd]; omega
      · rintro ⟨e', he', hd'⟩
        rcases List.mem_cons.mp he' with rfl | hmem
        · rw [hd] at hd'; exact absurd hd' (by simp)
        · have := ih2 ⟨e', hmem, hd'⟩
          simp [buildOutlets, hd]; omega

/-- Claim C7 witness: a single unnamed row yields zero controllers. -/
theorem buildOutlets_ignore_unnamed_card_witness :
    (buildOutlets "c" "h" true [⟨1, none, "OFF"⟩]).length ≤ 1 ∧
    (buildOutlets "c" "h" true [⟨1, none, "OFF"⟩]).length < 1 :=
  ⟨(buildOutlets_ignore_unnamed_card "c" "h" [⟨1, none, "OFF"⟩]).1,
   (buildOutlets_ignore_unnamed_card "c" "h" [⟨1, none, "OFF"⟩]).2
     ⟨⟨1, none, "OFF"⟩, by simp, rfl⟩⟩

/-- Claim C8: an outlet whose description is `None` is registered under the
stringified outlet number, and every refresh re-substitutes the stringified
number for an absent label; the display name is always
`controller_name ++ "_"` followed by that label-or-index, and the unique id
is `hostname ++ "_"` followed by the outlet number. -/
theorem unnamed_outlet_display_and_identity
    (cn host : String) (e : StatusEntry) (rest : List StatusEntry) (r : DINRelay)
    (hd : e.description = none) :
    buildOutlets cn host false (e :: rest) =
      DINRelay.init cn host e.outlet_number (toString e.outlet_number) e.state ::
        buildOutlets cn host false rest ∧
    (DINRelay.init cn host e.outlet_number (toString e.outlet_number) e.state)._name =
      toString e.outlet_number ∧
    (DINRelay.init cn host e.outlet_number (toString e.outlet_number) e.state).name =
      cn ++ "_" ++ toString e.outlet_number ∧
    (r.applyStatus e)._name = toString r._outlet_number ∧
    (r.applyStatus e).name = r._controller_name ++ "_" ++ toString r._outlet_number ∧
    r.unique_id = r.hostname ++ "_" ++ toString r._outlet_number := by
  refine ⟨?_, rfl, rfl, ?_, ?_, rfl⟩
  · simp [buildOutlets, hd]
  · simp [DINRelay.applyStatus, hd, pyOr]
  · simp [DINRelay.name, DINRelay.applyStatus, hd, pyOr]

/-- Claim C8 witness: unnamed outlet 2 on controller `c`, host `h`. -/
theorem unnamed_outlet_display_and_identity_witness :
    buildOutlets "c" "h" false [⟨2, none, "ON"⟩] =
      DINRelay.init "c" "h" 2 (toString 2) "ON" :: buildOutlets "c" "h" false [] ∧
    (DINRelay.init "c" "h" 2 (toString 2) "ON")._name = toString 2 ∧
    (DINRelay.init "c" "h" 2 (toString 2) "ON").name = "c" ++ "_" ++ toString 2 ∧
    ((⟨"c", "h", 2, "x", false⟩ : DINRelay).applyStatus ⟨2, none, "ON"⟩)._name = toString 2 ∧
    ((⟨"c", "h", 2, "x", false⟩ : DINRelay).applyStatus ⟨2, none, "ON"⟩).name =
      "c" ++ "_" ++ toString 2 ∧
    (⟨"c", "h", 2, "x", false⟩ : DINRelay).unique_id = "h" ++ "_" ++ toString 2 :=
  unnamed_outlet_display_and_identity "c" "h" ⟨2, none, "ON"⟩ [] ⟨"c", "h", 2, "x", false⟩ rfl

/-- Claim C9: `is_on` holds exactly when the raw device state string is the
literal `"ON"`, both for the entity as constructed and after a refresh
copies a row in; every other raw value — `"OFF"`, lowercase `"on"`, an
unknown marker — is coerced to off. -/
theorem is_on_iff_raw_state_ON (cn host desc st : String) (n : Nat)
    (r : DINRelay) (e : StatusEntry) :
    ((DINRelay.init cn host n desc st).is_on = true ↔ st = "ON") ∧
    ((r.applyStatus e).is_on = true ↔ e.state = "ON") := by
  constructor <;> simp [DINRelay.init, DINRelay.applyStatus, DINRelay.is_on]

/-- Claim C9 witness: an indeterminate raw value reads as off. -/
theorem is_on_iff_raw_state_ON_witness :
    ((DINRelay.init "c" "h" 1 "lamp" "UNKNOWN").is_on = true ↔ ("UNKNOWN" : String) = "ON") ∧
    (((⟨"c", "h", 1, "lamp", true⟩ : DINRelay).applyStatus ⟨1, some "lamp", "UNKNOWN"⟩).is_on
        = true ↔
      (⟨1, some "lamp", "UNKNOWN"⟩ : StatusEntry).state = "ON") :=
  is_on_iff_raw_state_ON "c" "h" "lamp" "UNKNOWN" 1 ⟨"c", "h", 1, "lamp", true⟩
    ⟨1, some "lamp", "UNKNOWN"⟩

/-- Claim C10: an outlet whose label is the empty string is registered even
under `ignore_unnamed_outlets` and keeps `""` as its cached name — only a
`None` description is skipped — yet the first refresh, whose `or`
substitution treats any falsy label alike, renames it to the stringified
outlet number, so its display name changes. -/
theorem empty_label_registration_update_mismatch (cn host st : String) (n : Nat) :
    buildOutlets cn host true [⟨n, some "", st⟩] = [DINRelay.init cn host n "" st] ∧
    (DINRelay.init cn host n "" st)._name = "" ∧
    ((DINRelay.init cn host n "" st).applyStatus ⟨n, some "", st⟩)._name = toString n ∧
    ((DINRelay.init cn host n "" st).applyStatus ⟨n, some "", st⟩).name ≠
      (DINRelay.init cn host n "" st).name := by
  refine ⟨by simp [buildOutlets],
    rfl, by simp [DINRelay.applyStatus, DINRelay.init, pyOr], ?_⟩
  intro h
  simp only [DINRelay.name, DINRelay.applyStatus, DINRelay.init, pyOr, if_pos] at h
  exact toString_nat_ne_empty n (by simpa using string_append_left_cancel h)

/-- Claim C10 witness: outlet 3 with an empty label. -/
theorem empty_label_registration_update_mismatch_witness :
    buildOutlets "c" "h" true [⟨3, some "", "ON"⟩] = [DINRelay.init "c" "h" 3 "" "ON"] ∧
    (DINRelay.init "c" "h" 3 "" "ON")._name = "" ∧
    ((DINRelay.init "c" "h" 3 "" "ON").applyStatus ⟨3, some "", "ON"⟩)._name = toString 3 ∧
    ((DINRelay.init "c" "h" 3 "" "ON").applyStatus ⟨3, some "", "ON"⟩).name ≠
      (DINRelay.init "c" "h" 3 "" "ON").name :=
  empty_label_registration_update_mismatch "c" "h" "ON" 3
